import Mathlib

/-!
Verification development for the `nativeplayer` headers of the encore
repository: `INativeSink.h` (abstract sink interface) and `NativeHub.h`
(hub holding a DSP chain and a sink pointer).

The repository supplies only declarations: `INativeSink::enqueue` is pure
virtual, and the bodies of `NativeHub::NativeHub`, `NativeHub::~NativeHub`
and `NativeHub::setSink` are not in the source tree.  The behavioural
definitions below are therefore modelled from the documented contracts
(the doc comments in the headers and the specification text), while the
data shapes (field types, signatures) are taken directly from the headers.
-/

namespace Encore

/-- A raw C++ pointer to an `INativeSink`: either null or an address. -/
abbrev SinkPtr := Option Nat

/-- Observable state of an `INativeSink` implementation.  The interface
itself carries no state; an implementation is a destination buffer for
audio samples.  `capacity` and `queued` count samples; `bytesPerSample`
is the (implementation-chosen) size of one audio sample in bytes. -/
structure SinkState where
  capacity : Nat
  queued : Nat
  bytesPerSample : Nat
deriving DecidableEq, Repr

/-- The destination buffer of the sink is full: no free sample slot. -/
def SinkState.full (s : SinkState) : Bool :=
  s.capacity ≤ s.queued

/-- Number of samples of an input of `len` bytes the sink accepts:
the samples contained in the input, capped by the free space.
This definition follows the words of the documented contract
(returns the count of samples accepted). -/
def samplesAccepted (s : SinkState) (len : Nat) : Nat :=
  min (len / s.bytesPerSample) (s.capacity - s.queued)

/-- Number of bytes of the input consumed by an enqueue call:
the accepted samples, converted back to bytes.  This definition follows
the words of the spec sentence claiming the return value counts bytes,
for comparison with the source contract. -/
def bytesAccepted (s : SinkState) (len : Nat) : Nat :=
  samplesAccepted s len * s.bytesPerSample

/-- Modelled from the spec: `INativeSink::enqueue` is pure virtual, so no
body exists in the source.  The header documents the contract as
"Enqueue buffer data if possible to the player.  @returns The number of
samples written (0 means the buffer is full)".  The model writes as many
whole samples of the input as fit into the free space, and returns the
number of samples written.  `data` is the byte contents of the buffer;
`len` is the byte length argument. -/
def SinkState.enqueue (s : SinkState) (data : List Nat) (len : Nat) :
    SinkState × Nat :=
  let written := min (len / s.bytesPerSample) (s.capacity - s.queued)
  ({ s with queued := s.queued + written }, written)

/-- Modelled from the spec: section 7 states that no exception or
error-kind taxonomy is present, and the declaration of `enqueue` names no
error channel.  A call therefore always produces a plain result and never
an exceptional one. -/
def SinkState.enqueueChecked (s : SinkState) (data : List Nat)
    (len : Nat) : Except String (SinkState × Nat) :=
  Except.ok (s.enqueue data len)

/-- Byte-addressed caller memory, for frame statements about the input
buffer. -/
abbrev Memory := Nat → Nat

/-- The `len` bytes of memory starting at address `ptr`. -/
def readBytes (mem : Memory) (ptr len : Nat) : List Nat :=
  (List.range len).map (fun i => mem (ptr + i))

/-- Modelled from the spec: `enqueue` takes its buffer as `const void*`,
so the call reads the caller memory but does not write it.  The model
threads the memory through the call and returns it together with the
new sink state and the return value. -/
def SinkState.enqueueMem (s : SinkState) (mem : Memory) (ptr len : Nat) :
    SinkState × Nat × Memory :=
  let r := s.enqueue (readBytes mem ptr len) len
  (r.1, r.2, mem)

/-- The `NativeHub` class: the private fields from `NativeHub.h`,
`std::list<std::string> m_DSPChain` and `INativeSink* m_pSink`. -/
structure NativeHub where
  m_DSPChain : List String
  m_pSink : SinkPtr
deriving DecidableEq, Repr

/-- Modelled from the spec: the body of the constructor `NativeHub()` is
not in the source.  The hub starts with zero DSP stages and no sink. -/
def NativeHub.init : NativeHub :=
  { m_DSPChain := [], m_pSink := none }

/-- Sets the active audio sink.  Modelled from the spec: the body of
`setSink` is not in the source; the spec says it replaces the active
sink reference of the hub. -/
def NativeHub.setSink (h : NativeHub) (sink : SinkPtr) : NativeHub :=
  { h with m_pSink := sink }

/-- A heap of sink objects: which addresses hold a live sink, and its
state.  `none` at an address means no live sink there. -/
abbrev SinkHeap := Nat → Option SinkState

/-- A world: the hub together with the heap of sink objects it may point
into. -/
structure World where
  hub : NativeHub
  sinks : SinkHeap

/-- `setSink` acting on a world: it updates the hub and leaves every sink
object alone. -/
def World.setSinkW (w : World) (p : SinkPtr) : World :=
  { w with hub := w.hub.setSink p }

/-- Modelled from the spec: the body of the destructor `~NativeHub()` is
not in the source.  The spec documents the sink reference as non-owning:
the hub does not own or destroy the sink, so destroying the hub leaves
the sink heap unchanged.  The result is the heap after the hub is gone. -/
def World.destroyHub (w : World) : SinkHeap :=
  w.sinks

end Encore

namespace Encore

/-- C1: a call to `enqueue` returns 0 when the destination is full, and
otherwise returns the count of samples it accepted. -/
theorem enqueue_zero_iff_full_else_count (s : SinkState) (data : List Nat)
    (len : Nat) :
    (s.full = true → (s.enqueue data len).2 = 0) ∧
    (s.full = false → (s.enqueue data len).2 = samplesAccepted s len) := by
  constructor
  · intro h
    have hle : s.capacity ≤ s.queued := by
      simpa [SinkState.full] using h
    simp [SinkState.enqueue, Nat.sub_eq_zero_of_le hle]
  · intro _
    rfl

/-- Witness for C1: at a full sink the return value is 0, and at a
non-full sink the return value is the count of accepted samples. -/
theorem enqueue_zero_iff_full_else_count_witness :
    ((SinkState.mk 5 5 2).enqueue [1, 2, 3, 4] 4).2 = 0 ∧
    ((SinkState.mk 5 0 2).enqueue [1, 2, 3, 4] 4).2 =
      samplesAccepted (SinkState.mk 5 0 2) 4 :=
  ⟨(enqueue_zero_iff_full_else_count (SinkState.mk 5 5 2) [1, 2, 3, 4] 4).1
      (by decide),
   (enqueue_zero_iff_full_else_count (SinkState.mk 5 0 2) [1, 2, 3, 4] 4).2
      (by decide)⟩

/-- C2: `setSink` replaces the stored sink reference: afterwards the
stored sink of the hub equals the argument. -/
theorem setSink_stores_sink (h : NativeHub) (s : SinkPtr) :
    (h.setSink s).m_pSink = s :=
  rfl

/-- C3 counterexample: the claim says the return value of `enqueue`
counts the bytes of input accepted.  At a sink with two bytes per sample
and free space, a four-byte input is accepted whole (four bytes, two
samples) and the call returns 2, not 4. -/
theorem enqueue_returns_samples_not_bytes_counterexample :
    ((SinkState.mk 10 0 2).enqueue [1, 2, 3, 4] 4).2 = 2 ∧
    bytesAccepted (SinkState.mk 10 0 2) 4 = 4 ∧
    ((SinkState.mk 10 0 2).enqueue [1, 2, 3, 4] 4).2 ≠
      bytesAccepted (SinkState.mk 10 0 2) 4 := by
  decide

/-- C3 amended: the return value of `enqueue` reports how many samples of
the input were accepted; the bytes consumed are that count times the
byte size of a sample. -/
theorem enqueue_returns_samples_accepted (s : SinkState) (data : List Nat)
    (len : Nat) :
    (s.enqueue data len).2 = samplesAccepted s len ∧
    (s.enqueue data len).2 * s.bytesPerSample = bytesAccepted s len :=
  ⟨rfl, rfl⟩

/-- C4: no hub operation destroys or mutates the sink objects the hub
may point to: `setSink` leaves the sink heap unchanged, and destroying
the hub leaves the sink heap unchanged (in particular the sink the hub
currently points to stays live and untouched). -/
theorem hub_does_not_own_sink (w : World) (p : SinkPtr) (a : Nat) :
    (w.setSinkW p).sinks a = w.sinks a ∧
    w.destroyHub a = w.sinks a :=
  ⟨rfl, rfl⟩

/-- C5: the DSP chain of a hub is always a (possibly empty) ordered list
of plain string names, and the initial hub has an empty chain. -/
theorem dsp_chain_is_list_of_names :
    NativeHub.init.m_DSPChain = ([] : List String) ∧
    ∀ hub : NativeHub, ∃ names : List String, hub.m_DSPChain = names :=
  ⟨rfl, fun hub => ⟨hub.m_DSPChain, rfl⟩⟩

/-- C6: the only specified error condition of `enqueue`, a full
destination, is signalled solely by the return value 0; the call always
produces an ordinary result and never an exceptional one. -/
theorem enqueue_signals_full_by_zero_no_exception (s : SinkState)
    (data : List Nat) (len : Nat) :
    s.enqueueChecked data len = Except.ok (s.enqueue data len) ∧
    (s.full = true → (s.enqueue data len).2 = 0) := by
  refine ⟨rfl, fun h => ?_⟩
  have hle : s.capacity ≤ s.queued := by
    simpa [SinkState.full] using h
  simp [SinkState.enqueue, Nat.sub_eq_zero_of_le hle]

/-- Witness for C6: at a concrete full sink the call returns an ordinary
result whose value is 0. -/
theorem enqueue_signals_full_by_zero_no_exception_witness :
    (SinkState.mk 3 3 2).enqueueChecked [9] 1 =
      Except.ok ((SinkState.mk 3 3 2).enqueue [9] 1) ∧
    ((SinkState.mk 3 3 2).enqueue [9] 1).2 = 0 :=
  ⟨(enqueue_signals_full_by_zero_no_exception (SinkState.mk 3 3 2) [9] 1).1,
   (enqueue_signals_full_by_zero_no_exception (SinkState.mk 3 3 2) [9] 1).2
      (by decide)⟩

/-- C7: the value returned by `enqueue` is an unsigned 32-bit count: it
is a natural number (never negative) bounded by the byte length, hence
below 2 ^ 32 whenever the `uint32_t` length argument is. -/
theorem enqueue_returns_uint32 (s : SinkState) (data : List Nat)
    (len : Nat) (h : len < 2 ^ 32) :
    (s.enqueue data len).2 ≤ len ∧ (s.enqueue data len).2 < 2 ^ 32 := by
  have hle : (s.enqueue data len).2 ≤ len := by
    calc (s.enqueue data len).2
        ≤ len / s.bytesPerSample := Nat.min_le_left _ _
      _ ≤ len := Nat.div_le_self _ _
  exact ⟨hle, lt_of_le_of_lt hle h⟩

/-- Witness for C7: a concrete call whose return value is bounded by the
length and below 2 ^ 32. -/
theorem enqueue_returns_uint32_witness :
    ((SinkState.mk 8 0 2).enqueue [1, 2, 3, 4] 4).2 ≤ 4 ∧
    ((SinkState.mk 8 0 2).enqueue [1, 2, 3, 4] 4).2 < 2 ^ 32 :=
  enqueue_returns_uint32 (SinkState.mk 8 0 2) [1, 2, 3, 4] 4 (by decide)

/-- C8: `setSink` leaves the DSP chain of the hub unchanged; only the
sink reference field is modified. -/
theorem setSink_preserves_dsp_chain (h : NativeHub) (s : SinkPtr) :
    (h.setSink s).m_DSPChain = h.m_DSPChain :=
  rfl

/-- C9: an `enqueue` call leaves the caller memory, and in particular the
input buffer it reads, unchanged. -/
theorem enqueue_preserves_input_buffer (s : SinkState) (mem : Memory)
    (ptr len : Nat) :
    (s.enqueueMem mem ptr len).2.2 = mem ∧
    readBytes (s.enqueueMem mem ptr len).2.2 ptr len =
      readBytes mem ptr len :=
  ⟨rfl, rfl⟩

/-- C10: `setSink` accepts any pointer value, including null, with no
precondition: after `setSink(null)` the stored sink reference is null. -/
theorem setSink_accepts_null (h : NativeHub) :
    (h.setSink none).m_pSink = none :=
  rfl

end Encore
